import Mathlib

/-!
Verification of the task-block parser and writer of the `seeyou-cup` crate.

The embedding models Rust `&str` values as `List Char` (`Str`), CSV records
(`csv::StringRecord`) as `List Str`, and the record stream consumed by
`parse_tasks` as a list of read results `Except String Rec`.  The byte slice
`record.as_byte_record().as_slice()` of the `csv` crate is the concatenation
of the record's fields with the delimiters stripped; on the ASCII prefixes
involved this is modelled by `List.join` on the fields.  Machine-integer
parses carry their explicit bounds (`u8` < 256, `u32` < 2^32, `usize` < 2^64)
and the `usize as u32` cast is `% 2^32`.
-/

set_option maxRecDepth 8000

namespace SeeyouCup

/-- Rust `&str`, at the level of characters (the parsers only inspect ASCII). -/
abbrev Str := List Char

/-- Convert a Lean string literal into the `Str` model. -/
def str (s : String) : Str := s.toList

/-- One CSV record (`csv::StringRecord`): the list of its fields. -/
abbrev Rec := List Str

/-- One item of the record stream: a read result from the CSV reader. -/
abbrev RecResult := Except String Rec

/-! ## String helpers mirroring the Rust standard library -/

/-- Rust `str::split_once(sep)`: split at the first occurrence of `sep`. -/
def splitOnce : Str → Char → Option (Str × Str)
  | [], _ => none
  | c :: cs, sep =>
    if c = sep then some ([], cs)
    else (splitOnce cs sep).map fun p => (c :: p.1, p.2)

/-- ASCII lowercasing of a single character. -/
def asciiLower (c : Char) : Char :=
  if 'A' ≤ c ∧ c ≤ 'Z' then Char.ofNat (c.toNat + 32) else c

/-- Rust `str::eq_ignore_ascii_case`. -/
def eqIgnoreAsciiCase (a b : Str) : Bool :=
  a.map asciiLower == b.map asciiLower

/-- Rust `str::strip_prefix(p).unwrap_or(s)`: remove one leading occurrence
of `p`, or return `s` unchanged when `p` is not a prefix. -/
def stripLead (p s : Str) : Str :=
  if p.isPrefixOf s then s.drop p.length else s

/-- Rust `str::trim_start_matches(p)`: remove all leading occurrences of
`p`.  Each removal of a nonempty prefix strictly shortens the string, so
`s.length` rounds of fuel upper-bound the iteration. -/
def trimLeadMatchesAux (p : Str) : Nat → Str → Str
  | 0, s => s
  | fuel + 1, s =>
    if p.isPrefixOf s ∧ p ≠ [] then trimLeadMatchesAux p fuel (s.drop p.length)
    else s

/-- Rust `str::trim_start_matches(p)`. -/
def trimLeadMatches (p : Str) (s : Str) : Str :=
  trimLeadMatchesAux p s.length s

/-- Strip leading whitespace characters. -/
def trimLeft : Str → Str
  | [] => []
  | c :: cs => if c.isWhitespace then trimLeft cs else c :: cs

/-- Rust `str::trim`: strip whitespace from both ends. -/
def trim (s : Str) : Str :=
  (trimLeft (trimLeft s).reverse).reverse

/-- Numeric value of a digit string. -/
def digitsVal (s : Str) : Nat :=
  s.foldl (fun acc c => acc * 10 + (c.toNat - '0'.toNat)) 0

/-- Nonempty string of ASCII digits. -/
def isDigits (s : Str) : Bool :=
  !s.isEmpty && s.all Char.isDigit

/-- Rust unsigned-integer `from_str`: an optional leading `+`, then one or
more ASCII digits (the width bound is applied by the callers below). -/
def parseNatCore (s : Str) : Option Nat :=
  let t := match s with
    | '+' :: cs => cs
    | _ => s
  if isDigits t then some (digitsVal t) else none

/-- Rust `str::parse::<u8>()`. -/
def parseU8 (s : Str) : Option Nat :=
  match parseNatCore s with
  | some n => if n < 256 then some n else none
  | none => none

/-- Rust `str::parse::<u32>()`. -/
def parseU32 (s : Str) : Option Nat :=
  match parseNatCore s with
  | some n => if n < 2 ^ 32 then some n else none
  | none => none

/-- Rust `str::parse::<usize>()` on a 64-bit target. -/
def parseUsize (s : Str) : Option Nat :=
  match parseNatCore s with
  | some n => if n < 2 ^ 64 then some n else none
  | none => none

/-- Modelled from the spec: the magnitude of a unit-suffixed numeric or a
plain float field — an optional sign, digits, and an optional fractional
part.  The concrete float representation is immaterial to the claims, so a
validated magnitude is retained as its source text. -/
def isDecimalMag (s : Str) : Bool :=
  let t := match s with
    | '+' :: cs => cs
    | '-' :: cs => cs
    | _ => s
  match splitOnce t '.' with
  | none => isDigits t
  | some (a, b) => isDigits a && isDigits b

/-- Modelled from the spec: best-effort plain-float parse (task angles, the
`Bonus` option); on success the validated text is the value. -/
def parseFloatTxt (s : Str) : Option Str :=
  if isDecimalMag s then some s else none

/-! ## Data model (`lib.rs` is not under `src/`; modelled from the spec §3) -/

/-- Modelled from the spec: the closed unit vocabulary for distances and
runway dimensions. -/
inductive DistUnit
  | m
  | km
  | nm
  | ml
deriving DecidableEq, Repr

/-- Modelled from the spec: a unit-tagged distance (`Distance` in the crate);
the magnitude is kept as its validated source text. -/
structure Distance where
  mag : Str
  unit : DistUnit
deriving DecidableEq, Repr

/-- Modelled from the spec: the closed unit vocabulary for elevations. -/
inductive ElevUnit
  | m
  | ft
deriving DecidableEq, Repr

/-- Modelled from the spec: a unit-tagged elevation (`Elevation` in the
crate). -/
structure Elevation where
  mag : Str
  unit : ElevUnit
deriving DecidableEq, Repr

/-- Modelled from the spec: a unit-suffixed numeric parses a magnitude and a
trailing unit token from the closed unit vocabulary (`Distance::from_str`). -/
def parseDistance (s : Str) : Option Distance :=
  let tryUnit : Str → DistUnit → Option Distance := fun u unit =>
    if u.isSuffixOf s then
      let mag := s.take (s.length - u.length)
      if isDecimalMag mag then some ⟨mag, unit⟩ else none
    else none
  (tryUnit (str "km") .km) <|> (tryUnit (str "nm") .nm) <|>
    (tryUnit (str "ml") .ml) <|> (tryUnit (str "m") .m)

/-- Modelled from the spec: `Elevation::from_str`, units meters or feet. -/
def parseElevation (s : Str) : Option Elevation :=
  let tryUnit : Str → ElevUnit → Option Elevation := fun u unit =>
    if u.isSuffixOf s then
      let mag := s.take (s.length - u.length)
      if isDecimalMag mag then some ⟨mag, unit⟩ else none
    else none
  (tryUnit (str "ft") .ft) <|> (tryUnit (str "m") .m)

/-- Modelled from the spec: the closed observation-zone style enum (no
lenient fallback variant). -/
inductive ObsZoneStyle
  | Fixed
  | Symmetrical
  | ToNext
  | ToPrevious
  | ToStart
deriving DecidableEq, Repr

/-- Modelled from the spec: `ObsZoneStyle::from_u8`, the closed numeric-code
table; an unrecognized code yields `none` (the strict policy). -/
def ObsZoneStyle.from_u8 (n : Nat) : Option ObsZoneStyle :=
  match n with
  | 0 => some .Fixed
  | 1 => some .Symmetrical
  | 2 => some .ToNext
  | 3 => some .ToPrevious
  | 4 => some .ToStart
  | _ => none

/-- Modelled from the spec: the waypoint style enum — a closed code table
with an `Unknown` fallback variant (the lenient policy). -/
inductive WaypointStyle
  | Unknown
  | Known (code : Nat)
deriving DecidableEq, Repr

/-- Modelled from the spec: the closed waypoint style-code table wrapped by
the lenient adapter — an unrecognized code degrades to `Unknown`. -/
def waypointStyleFromCode (n : Nat) : WaypointStyle :=
  if 1 ≤ n ∧ n ≤ 17 then .Known n else .Unknown

/-- Modelled from the spec: a recoverable decode problem carrying the
originating raw record. -/
structure Warning where
  message : Str
  record : Rec
deriving DecidableEq, Repr

/-- The fatal error channel (`error.rs` is not under `src/`): a parse issue,
a parse issue carrying the offending record, or a CSV read failure. -/
inductive Err
  | parse (msg : Str)
  | parseRec (msg : Str) (record : Rec)
  | csv (msg : Str)
deriving DecidableEq, Repr

instance {ε α : Type} [DecidableEq ε] [DecidableEq α] : DecidableEq (Except ε α) := fun a b =>
  match a, b with
  | .error x, .error y =>
    if h : x = y then .isTrue (by rw [h])
    else .isFalse (by intro hc; cases hc; exact h rfl)
  | .ok x, .ok y =>
    if h : x = y then .isTrue (by rw [h])
    else .isFalse (by intro hc; cases hc; exact h rfl)
  | .error _, .ok _ => .isFalse (by intro hc; cases hc)
  | .ok _, .error _ => .isFalse (by intro hc; cases hc)

/-- Modelled from the spec: `Waypoint` (§3); textual fields are kept as raw
text, numeric magnitudes as validated source text. -/
structure Waypoint where
  name : Str
  code : Str
  country : Str
  lat : Str
  lon : Str
  elevation : Elevation
  style : WaypointStyle
  rwdir : Option Nat
  rwlen : Option Distance
  rwwidth : Option Distance
  freq : Str
  desc : Str
  userdata : Str
  pics : List Str
deriving DecidableEq, Repr

/-- `TaskOptions` (§3): every field independently optional. -/
structure TaskOptions where
  no_start : Option Str
  task_time : Option Str
  wp_dis : Option Bool
  near_dis : Option Distance
  near_alt : Option Elevation
  min_dis : Option Bool
  random_order : Option Bool
  max_pts : Option Nat
  before_pts : Option Nat
  after_pts : Option Nat
  bonus : Option Str
deriving DecidableEq, Repr

/-- `ObservationZone` (§3): mandatory index and style, optional radii,
angles and line flag. -/
structure ObservationZone where
  index : Nat
  style : ObsZoneStyle
  r1 : Option Distance
  a1 : Option Str
  r2 : Option Distance
  a2 : Option Str
  a12 : Option Str
  line : Option Bool
deriving DecidableEq, Repr

/-- `Task` (§3). -/
structure Task where
  description : Option Str
  waypoint_names : List Str
  options : Option TaskOptions
  observation_zones : List ObservationZone
  points : List (Nat × Waypoint)
  multiple_starts : List Str
deriving DecidableEq, Repr

/-- The column map resolved from the waypoint-section header
(`parser/column_map.rs` is not under `src/`; modelled from the spec §4.1):
each canonical attribute maps to a column position or is absent. -/
structure ColumnMap where
  name : Option Nat := none
  code : Option Nat := none
  country : Option Nat := none
  lat : Option Nat := none
  lon : Option Nat := none
  elev : Option Nat := none
  style : Option Nat := none
  rwdir : Option Nat := none
  rwlen : Option Nat := none
  rwwidth : Option Nat := none
  freq : Option Nat := none
  desc : Option Nat := none
  userdata : Option Nat := none
  pics : Option Nat := none
deriving Repr

/-! ## Line parsers of `src/parser/task.rs` -/

/-- `parse_task_line` (task.rs:63-84): an empty record is a hard error;
field 0 is the description (empty ⇒ `None`), fields 1.. the route. -/
def parse_task_line (record : Rec) : Except Err Task :=
  if record.isEmpty then
    .error (.parse (str "Empty task line"))
  else
    let description :=
      if (record.head?.map List.isEmpty).getD true then none
      else record.head?
    .ok { description := description
          waypoint_names := record.drop 1
          options := none
          observation_zones := []
          points := []
          multiple_starts := [] }

/-- One step of the `for part in record.iter().skip(1)` loop of
`parse_options_line` (task.rs:102-119). -/
def optsStep (o : TaskOptions) (part : Str) : Except Err TaskOptions :=
  match splitOnce part '=' with
  | none => .ok o
  | some (key, value) =>
    if key = str "NoStart" then .ok { o with no_start := some value }
    else if key = str "TaskTime" then .ok { o with task_time := some value }
    else if key = str "WpDis" then
      .ok { o with wp_dis := some (eqIgnoreAsciiCase value (str "true")) }
    else if key = str "NearDis" then
      match parseDistance value with
      | some d => .ok { o with near_dis := some d }
      | none => .error (.parse (str "invalid distance"))
    else if key = str "NearAlt" then
      match parseElevation value with
      | some e => .ok { o with near_alt := some e }
      | none => .error (.parse (str "invalid elevation"))
    else if key = str "MinDis" then
      .ok { o with min_dis := some (eqIgnoreAsciiCase value (str "true")) }
    else if key = str "RandomOrder" then
      .ok { o with random_order := some (eqIgnoreAsciiCase value (str "true")) }
    else if key = str "MaxPts" then .ok { o with max_pts := parseU32 value }
    else if key = str "BeforePts" then .ok { o with before_pts := parseU32 value }
    else if key = str "AfterPts" then .ok { o with after_pts := parseU32 value }
    else if key = str "Bonus" then .ok { o with bonus := parseFloatTxt value }
    else .ok o

/-- `parse_options_line` (task.rs:86-122): start from the all-`None` bag and
fold the key=value fields 1.. through `optsStep`. -/
def parse_options_line (record : Rec) : Except Err TaskOptions :=
  (record.drop 1).foldlM optsStep
    { no_start := none, task_time := none, wp_dis := none, near_dis := none
      near_alt := none, min_dis := none, random_order := none, max_pts := none
      before_pts := none, after_pts := none, bonus := none }

/-- The mutable locals of `parse_obszone_line` (task.rs:126-133). -/
structure ObsAcc where
  index : Option Nat := none
  style : Option ObsZoneStyle := none
  r1 : Option Distance := none
  a1 : Option Str := none
  r2 : Option Distance := none
  a2 : Option Str := none
  a12 : Option Str := none
  line_val : Option Bool := none
deriving DecidableEq, Repr

/-- One step of the `for part in record.iter()` loop of `parse_obszone_line`
(task.rs:135-153). -/
def obsStep (acc : ObsAcc) (part : Str) : Except Err ObsAcc :=
  match splitOnce part '=' with
  | none => .ok acc
  | some (key, value) =>
    if key = str "ObsZone" then .ok { acc with index := parseU32 value }
    else if key = str "Style" then
      let style :=
        match parseU8 value with
        | some val => ObsZoneStyle.from_u8 val
        | none => acc.style
      .ok { acc with style := style }
    else if key = str "R1" then
      match parseDistance value with
      | some d => .ok { acc with r1 := some d }
      | none => .error (.parse (str "invalid distance"))
    else if key = str "A1" then .ok { acc with a1 := parseFloatTxt value }
    else if key = str "R2" then
      match parseDistance value with
      | some d => .ok { acc with r2 := some d }
      | none => .error (.parse (str "invalid distance"))
    else if key = str "A2" then .ok { acc with a2 := parseFloatTxt value }
    else if key = str "A12" then .ok { acc with a12 := parseFloatTxt value }
    else if key = str "Line" then
      .ok { acc with line_val := some (value == str "1" || eqIgnoreAsciiCase value (str "true")) }
    else .ok acc

/-- `parse_obszone_line` (task.rs:124-168): key=value pairs are read from all
fields (field 0 included); missing index or style is a hard error. -/
def parse_obszone_line (record : Rec) : Except Err ObservationZone := do
  let acc ← record.foldlM obsStep {}
  match acc.index with
  | none => .error (.parse (str "Missing ObsZone index"))
  | some index =>
    match acc.style with
    | none => .error (.parse (str "Missing ObsZone style"))
    | some style =>
      .ok { index := index, style := style, r1 := acc.r1, a1 := acc.a1
            r2 := acc.r2, a2 := acc.a2, a12 := acc.a12, line := acc.line_val }

/-- `parse_starts_line` (task.rs:170-186): strip the `STARTS=` prefix from
field 0 only, trim every field, drop the entries that are empty after
trimming. -/
def parse_starts_line (record : Rec) : Except Err (List Str) :=
  .ok ((((record.enum.map fun pr =>
      if pr.1 = 0 then stripLead (str "STARTS=") pr.2 else pr.2).map
        trim).filter fun s => !s.isEmpty))

/-! ## Waypoint codec (`src/parser/waypoint.rs` is not under `src/`) -/

/-- Split a string at every occurrence of a separator character. -/
def splitChar (s : Str) (sep : Char) : List Str :=
  match s with
  | [] => [[]]
  | c :: cs =>
    if c = sep then [] :: splitChar cs sep
    else
      match splitChar cs sep with
      | [] => [[c]]
      | h :: t => (c :: h) :: t

/-- Modelled from the spec: the strict unit-suffixed elevation field of the
Waypoint Codec — an absent field decodes to the empty default, a present but
unparsable one is a hard error (§4.2). -/
def decodeElevField (t : Str) : Except Str Elevation :=
  if t.isEmpty then .ok { mag := str "0", unit := .m }
  else
    match parseElevation t with
    | some e => .ok e
    | none => .error (str "invalid elevation")

/-- Modelled from the spec: a strict optional runway dimension — absent is
`none`, present but unparsable is a hard error (§4.2). -/
def decodeDimField (t : Str) : Except Str (Option Distance) :=
  if t.isEmpty then .ok none
  else
    match parseDistance t with
    | some d => .ok (some d)
    | none => .error (str "invalid runway dimension")

/-- Modelled from the spec: `waypoint::parse_waypoint` — the Waypoint Codec
decode of §4.2.  Fields are read only at mapped positions and absent fields
decode to their empty defaults; elevation and runway dimensions are strict,
style is lenient (unrecognized code ⇒ `Unknown`), a malformed optional
runway direction degrades to a `Warning` plus default. -/
def parse_waypoint (cm : ColumnMap) (record : Rec) (warnings : List Warning) :
    Except Str (Waypoint × List Warning) :=
  let fld : Option Nat → Str := fun pos =>
    match pos with
    | some i => (record.get? i).getD []
    | none => []
  match decodeElevField (fld cm.elev) with
  | .error e => .error e
  | .ok elevation =>
    match decodeDimField (fld cm.rwlen) with
    | .error e => .error e
    | .ok rwlen =>
      match decodeDimField (fld cm.rwwidth) with
      | .error e => .error e
      | .ok rwwidth =>
        let dirTxt := fld cm.rwdir
        let dirResult : Option Nat × List Warning :=
          if dirTxt.isEmpty then (none, warnings)
          else
            match parseU32 dirTxt with
            | some n => (some n, warnings)
            | none => (none, warnings ++ [⟨str "invalid runway direction", record⟩])
        let style :=
          match parseU8 (fld cm.style) with
          | some n => waypointStyleFromCode n
          | none => .Unknown
        .ok ({ name := fld cm.name, code := fld cm.code
               country := fld cm.country, lat := fld cm.lat, lon := fld cm.lon
               elevation := elevation, style := style, rwdir := dirResult.1
               rwlen := rwlen, rwwidth := rwwidth, freq := fld cm.freq
               desc := fld cm.desc, userdata := fld cm.userdata
               pics := (splitChar (fld cm.pics) ';').filter fun s => !s.isEmpty },
             dirResult.2)

/-- `parse_inline_waypoint_line_with_index` (task.rs:188-209): field 0 is
prefix-trimmed with `trim_start_matches("Point=")` and must parse as a
`usize`; fields 1.. are re-packaged as a fresh record and decoded through the
Waypoint Codec with the waypoint-section column map.  The caller guarantees a
nonempty record (`record[0]` would panic otherwise), so field 0 is read with
a default. -/
def parse_inline_waypoint_line_with_index (cm : ColumnMap) (record : Rec)
    (warnings : List Warning) : Except Err (Nat × Waypoint × List Warning) :=
  let point_idx_str := trimLeadMatches (str "Point=") (record.headD [])
  match parseUsize point_idx_str with
  | none => .error (.parse (str "Invalid point index: '" ++ point_idx_str ++ str "'"))
  | some point_index =>
    let waypoint_record := record.drop 1
    match parse_waypoint cm waypoint_record warnings with
    | .error e => .error (.parseRec e waypoint_record)
    | .ok (w, ws) => .ok (point_index, w, ws)

/-! ## The task-block state machine (`parse_tasks`, task.rs:7-61) -/

/-- The tag-line test of `parse_tasks` (task.rs:18-23 and 35-54): the
prefixes are checked against `record.as_byte_record().as_slice()`, the
concatenation of the record's fields with the delimiters stripped. -/
def isTagLine (record : Rec) : Bool :=
  let line := record.flatten
  (str "Options").isPrefixOf line || (str "ObsZone=").isPrefixOf line ||
    (str "Point=").isPrefixOf line || (str "STARTS=").isPrefixOf line

/-- The body of the lookahead loop of `parse_tasks` (task.rs:35-54): attach
one peeked tag record to the task under construction.  The four prefixes are
tested in source order; callers only reach this on tag lines, so the final
branch is inert. -/
def attachStep (cm : ColumnMap) (task : Task) (warnings : List Warning)
    (record : Rec) : Except Err (Task × List Warning) :=
  let next_line := record.flatten
  if (str "Options").isPrefixOf next_line then
    match parse_options_line record with
    | .error e => .error e
    | .ok o => .ok ({ task with options := some o }, warnings)
  else if (str "ObsZone=").isPrefixOf next_line then
    match parse_obszone_line record with
    | .error e => .error e
    | .ok z => .ok ({ task with observation_zones := task.observation_zones ++ [z] }, warnings)
  else if (str "Point=").isPrefixOf next_line then
    match parse_inline_waypoint_line_with_index cm record warnings with
    | .error e => .error e
    | .ok (i, w, ws) =>
      .ok ({ task with points := task.points ++ [(i % 2 ^ 32, w)] }, ws)
  else if (str "STARTS=").isPrefixOf next_line then
    match parse_starts_line record with
    | .error e => .error e
    | .ok l => .ok ({ task with multiple_starts := l }, warnings)
  else .ok (task, warnings)

/-- The whole loop nest of `parse_tasks` (task.rs:15-58) as structural
recursion over the record stream.  The second argument is the parser state:
`none` is `AwaitingHeader` (the outer loop about to call `next()`), `some t`
is `ConsumingAttachments` for the task `t` under construction (the inner
loop about to `peek()`).
- Awaiting, read failure: `result?` surfaces the error (task.rs:16).
- Awaiting, tag line: skipped by `continue` (task.rs:19-25).
- Awaiting, other: `parse_task_line` starts a task (task.rs:27).
- Consuming, read failure on peek: `break 'outer` abandons the stream and
  the in-flight task, returning `Ok` with the tasks pushed so far
  (task.rs:30-33, 60).
- Consuming, tag line: attach and consume (task.rs:35-54).
- Consuming, other: the inner loop breaks, the task is pushed, and the outer
  loop reads the same record as the next header (task.rs:52-57, 15-27).
- End of stream while consuming: peek is `None`, the task is pushed, the
  outer loop ends (task.rs:30, 57, 15). -/
def parseTasksGo (cm : ColumnMap) :
    List RecResult → Option Task → List Warning →
      Except Err (List Task × List Warning)
  | [], none, ws => .ok ([], ws)
  | [], some t, ws => .ok ([t], ws)
  | .error e :: _, none, _ => .error (.csv (str e))
  | .error _ :: _, some _, ws => .ok ([], ws)
  | .ok r :: rest, none, ws =>
    if isTagLine r then parseTasksGo cm rest none ws
    else
      match parse_task_line r with
      | .error e => .error e
      | .ok t => parseTasksGo cm rest (some t) ws
  | .ok r :: rest, some t, ws =>
    if isTagLine r then
      match attachStep cm t ws r with
      | .error e => .error e
      | .ok (t', ws') => parseTasksGo cm rest (some t') ws'
    else
      match parse_task_line r with
      | .error e => .error e
      | .ok t2 =>
        match parseTasksGo cm rest (some t2) ws with
        | .error e => .error e
        | .ok (ts, ws') => .ok (t :: ts, ws')

/-- `parse_tasks` (task.rs:7-61): run the state machine from
`AwaitingHeader` on the full stream. -/
def parse_tasks (cm : ColumnMap) (stream : List RecResult)
    (warnings : List Warning) : Except Err (List Task × List Warning) :=
  parseTasksGo cm stream none warnings

/-- A stream segment that the attachment loop consumes completely: every
record is a successfully read tag line whose attachment parse succeeds,
starting from task `t` and warning list `ws`. -/
def attachRunOk (cm : ColumnMap) : Task → List Warning → List RecResult → Bool
  | _, _, [] => true
  | t, ws, .ok r :: rest =>
    isTagLine r &&
      (match attachStep cm t ws r with
        | .ok (t', ws') => attachRunOk cm t' ws' rest
        | .error _ => false)
  | _, _, .error _ :: _ => false

/-- A column map declaring no columns, for concrete scenarios that use no
inline waypoints. -/
def cmEmpty : ColumnMap := {}

/-- The column map of the concrete inline-waypoint scenarios: only the
`name` column, at position 0. -/
def cmName : ColumnMap := { name := some 0 }

/-- The waypoint decoded by `cmName` from the single-field record `WP`:
every unmapped field at its empty default. -/
def wpWP : Waypoint :=
  { name := str "WP", code := [], country := [], lat := [], lon := [],
    elevation := { mag := str "0", unit := .m }, style := .Unknown, rwdir := none,
    rwlen := none, rwwidth := none, freq := [], desc := [], userdata := [],
    pics := [] }

/-! ## Writer (`src/writer/mod.rs`; `writer/waypoint.rs` and `writer/task.rs`
are not under `src/` and are modelled from the spec §4.2 and §4.4) -/

/-- The full document (`CupFile` in the crate). -/
structure CupFile where
  waypoints : List Waypoint
  tasks : List Task
deriving DecidableEq, Repr

/-- The CSV tokenizer collaborator's quoting rule: a field is quoted when it
contains a delimiter, a double quote, or a record terminator. -/
def needsQuoting (f : Str) : Bool :=
  f.any fun c => c = ',' || c = '"' || c = '\n' || c = '\r'

/-- The CSV tokenizer collaborator's field encoding: double every quote and
wrap in quotes when quoting is needed. -/
def escapeField (f : Str) : Str :=
  if needsQuoting f then
    '"' :: (f.flatMap fun c => if c = '"' then ['"', '"'] else [c]) ++ ['"']
  else f

/-- The CSV tokenizer collaborator's record emission: comma-joined escaped
fields plus a record terminator. -/
def csvRecordLine (fields : List Str) : Str :=
  (List.intercalate (str ",") (fields.map escapeField)) ++ ['\n']

/-- Decimal text of a natural number. -/
def natStr (n : Nat) : Str := (toString n).toList

/-- Modelled from the spec: the unit token emitted for a distance, from the
same closed vocabulary the decoder accepts. -/
def distUnitStr : DistUnit → Str
  | .m => str "m"
  | .km => str "km"
  | .nm => str "nm"
  | .ml => str "ml"

/-- Modelled from the spec: encode a unit-tagged distance. -/
def encodeDistance (d : Distance) : Str := d.mag ++ distUnitStr d.unit

/-- Modelled from the spec: encode a unit-tagged elevation. -/
def encodeElevation (e : Elevation) : Str :=
  e.mag ++ (match e.unit with | .m => str "m" | .ft => str "ft")

/-- Modelled from the spec: the numeric code emitted for a waypoint style. -/
def waypointStyleCode : WaypointStyle → Nat
  | .Unknown => 0
  | .Known code => code

/-- Modelled from the spec: the numeric code emitted for an observation-zone
style, the inverse of `ObsZoneStyle.from_u8`. -/
def obsZoneStyleCode : ObsZoneStyle → Nat
  | .Fixed => 0
  | .Symmetrical => 1
  | .ToNext => 2
  | .ToPrevious => 3
  | .ToStart => 4

/-- Modelled from the spec: the fourteen columns of one waypoint in
canonical order, an absent value emitting the empty token (§4.2 encode). -/
def waypointFields (w : Waypoint) : List Str :=
  [w.name, w.code, w.country, w.lat, w.lon, encodeElevation w.elevation,
    natStr (waypointStyleCode w.style),
    (w.rwdir.map natStr).getD [],
    (w.rwlen.map encodeDistance).getD [],
    (w.rwwidth.map encodeDistance).getD [],
    w.freq, w.desc, w.userdata, List.intercalate (str ";") w.pics]

/-- Modelled from the spec: `writer::waypoint::write_waypoint` — emit one
waypoint as one CSV record in canonical column order (§4.2 encode). -/
def write_waypoint (w : Waypoint) : Str := csvRecordLine (waypointFields w)

/-- Modelled from the spec: the Options line of a task — every `Some` field
as a `Key=value` token in the fixed key order (§4.4). -/
def optionsFields (o : TaskOptions) : List Str :=
  [(o.no_start.map fun v => str "NoStart=" ++ v),
    (o.task_time.map fun v => str "TaskTime=" ++ v),
    (o.wp_dis.map fun b => str "WpDis=" ++ (if b then str "True" else str "False")),
    (o.near_dis.map fun d => str "NearDis=" ++ encodeDistance d),
    (o.near_alt.map fun e => str "NearAlt=" ++ encodeElevation e),
    (o.min_dis.map fun b => str "MinDis=" ++ (if b then str "True" else str "False")),
    (o.random_order.map fun b => str "RandomOrder=" ++ (if b then str "True" else str "False")),
    (o.max_pts.map fun n => str "MaxPts=" ++ natStr n),
    (o.before_pts.map fun n => str "BeforePts=" ++ natStr n),
    (o.after_pts.map fun n => str "AfterPts=" ++ natStr n),
    (o.bonus.map fun v => str "Bonus=" ++ v)].reduceOption

/-- Modelled from the spec: one ObsZone line (§4.4). -/
def obsZoneFields (z : ObservationZone) : List Str :=
  [some (str "ObsZone=" ++ natStr z.index),
    some (str "Style=" ++ natStr (obsZoneStyleCode z.style)),
    (z.r1.map fun d => str "R1=" ++ encodeDistance d),
    (z.a1.map fun v => str "A1=" ++ v),
    (z.r2.map fun d => str "R2=" ++ encodeDistance d),
    (z.a2.map fun v => str "A2=" ++ v),
    (z.a12.map fun v => str "A12=" ++ v),
    (z.line.map fun b => str "Line=" ++ (if b then str "1" else str "0"))].reduceOption

/-- Modelled from the spec: `writer::task::format_task` — the header line
(description possibly empty, then the route names), then in fixed order the
Options line when present, each ObsZone line, each Point line, and the
STARTS line when nonempty (§4.4). -/
def format_task (t : Task) : Str :=
  csvRecordLine (t.description.getD [] :: t.waypoint_names) ++
    ((t.options.map fun o => csvRecordLine (str "Options" :: optionsFields o)).getD []) ++
    (t.observation_zones.map fun z => csvRecordLine (obsZoneFields z)).flatten ++
    (t.points.map fun p =>
      csvRecordLine ((str "Point=" ++ natStr p.1) :: waypointFields p.2)).flatten ++
    (if t.multiple_starts.isEmpty then []
     else match t.multiple_starts with
       | [] => []
       | s0 :: srest => csvRecordLine ((str "STARTS=" ++ s0) :: srest))

/-- The canonical waypoint header columns written first
(writer/mod.rs:38-41). -/
def canonicalHeader : List Str :=
  [str "name", str "code", str "country", str "lat", str "lon", str "elev",
    str "style", str "rwdir", str "rwlen", str "rwwidth", str "freq",
    str "desc", str "userdata", str "pics"]

/-- `format_cup_file` (writer/mod.rs:34-62): the waypoint header record, each
waypoint through the encoder, then — only when the task list is nonempty —
the fixed sentinel line followed by each task block with a trailing newline.
The `String::from_utf8` step cannot fail in the character-level model, and
the modelled sub-writers are infallible, so the `Ok` payload is total. -/
def format_cup_file (cup_file : CupFile) : Except Err Str :=
  let body := csvRecordLine canonicalHeader ++
    (cup_file.waypoints.map write_waypoint).flatten
  if cup_file.tasks.isEmpty then .ok body
  else
    .ok (body ++ str "-----Related Tasks-----" ++ ['\n'] ++
      (cup_file.tasks.map fun t => format_task t ++ ['\n']).flatten)

/-! ## Claim-side definitions

These two definitions follow the words of spec sentences under test, to be
compared with the behaviour of the embedded source functions. -/

/-- Classifier following the spec's words for §4.3 tag lines: the record's
first field, as raw bytes, starts with one of the four fixed prefixes. -/
def firstFieldTagClaim (record : Rec) : Bool :=
  match record.head? with
  | none => false
  | some f0 =>
    (str "Options").isPrefixOf f0 || (str "ObsZone=").isPrefixOf f0 ||
      (str "Point=").isPrefixOf f0 || (str "STARTS=").isPrefixOf f0

/-- The point index following the spec's words for §4.3 Point lines: field 0
after stripping the `Point=` prefix (one occurrence) must parse as a
non-negative integer. -/
def pointIndexClaim (f0 : Str) : Option Nat :=
  parseUsize (stripLead (str "Point=") f0)

/-! ## Helper lemmas -/

theorem splitOnce_key (sep : Char) (k v : Str) (hk : sep ∉ k) :
    splitOnce (k ++ sep :: v) sep = some (k, v) := by
  induction k with
  | nil => simp [splitOnce]
  | cons c cs ih =>
    simp only [List.mem_cons, not_or] at hk
    have hne : ¬c = sep := fun hcs => hk.1 hcs.symm
    simp [splitOnce, hne, ih hk.2]

theorem isPrefixOf_append_self (p s : Str) : p.isPrefixOf (p ++ s) = true :=
  List.isPrefixOf_iff_prefix.mpr (List.prefix_append p s)

theorem isPrefixOf_cons_ne {a b : Char} (h : a ≠ b) (as bs : Str) :
    (a :: as).isPrefixOf (b :: bs) = false := by
  simp [List.isPrefixOf, h]

theorem stripLead_append (p s : Str) : stripLead p (p ++ s) = s := by
  simp [stripLead, isPrefixOf_append_self, List.drop_left]

theorem enumFrom_map_ne_zero {α : Type} (f : α → α) (l : List α) (n : Nat) :
    ((List.enumFrom (n + 1) l).map fun pr => if pr.1 = 0 then f pr.2 else pr.2) = l := by
  induction l generalizing n with
  | nil => simp
  | cons a as ih => simpa [List.enumFrom] using ih (n + 1)

theorem takeWhile_append_cons {p : Char → Bool} (l : Str) (c : Char) (rest : Str)
    (hl : ∀ x ∈ l, p x = true) (hc : p c = false) :
    (l ++ c :: rest).takeWhile p = l := by
  induction l with
  | nil => simp [List.takeWhile, hc]
  | cons a as ih =>
    have ha := hl a (List.mem_cons_self a as)
    simp only [List.cons_append, List.takeWhile_cons, ha, if_true]
    simpa [ha] using ih fun x hx => hl x (List.mem_cons_of_mem a hx)

theorem except_bind_ok {ε α β : Type} (a : α) (f : α → Except ε β) :
    (Except.ok (ε := ε) a >>= f) = f a := rfl

theorem foldlM_except_cons {ε σ α : Type} (f : σ → α → Except ε σ) (s : σ)
    (a : α) (l : List α) :
    List.foldlM f s (a :: l) = f s a >>= fun s' => List.foldlM f s' l := rfl

/-- Rewrite a `Key=` literal followed by a symbolic value into the
`key ++ sep :: value` shape expected by `splitOnce_key`. -/
theorem key_eq_append (k ke v : Str) (h : ke = k ++ ['=']) :
    ke ++ v = k ++ '=' :: v := by
  subst h
  simp

theorem optsStep_wpdis (o : TaskOptions) (v : Str) :
    optsStep o (str "WpDis=" ++ v) =
      .ok { o with wp_dis := some (eqIgnoreAsciiCase v (str "true")) } := by
  rw [key_eq_append (str "WpDis") _ v (by decide)]
  simp only [optsStep, splitOnce_key '=' (str "WpDis") v (by decide)]
  rw [if_neg (by decide), if_neg (by decide)]
  simp

theorem optsStep_mindis (o : TaskOptions) (v : Str) :
    optsStep o (str "MinDis=" ++ v) =
      .ok { o with min_dis := some (eqIgnoreAsciiCase v (str "true")) } := by
  rw [key_eq_append (str "MinDis") _ v (by decide)]
  simp only [optsStep, splitOnce_key '=' (str "MinDis") v (by decide)]
  rw [if_neg (by decide), if_neg (by decide), if_neg (by decide),
    if_neg (by decide), if_neg (by decide)]
  simp

theorem optsStep_randomorder (o : TaskOptions) (v : Str) :
    optsStep o (str "RandomOrder=" ++ v) =
      .ok { o with random_order := some (eqIgnoreAsciiCase v (str "true")) } := by
  rw [key_eq_append (str "RandomOrder") _ v (by decide)]
  simp only [optsStep, splitOnce_key '=' (str "RandomOrder") v (by decide)]
  rw [if_neg (by decide), if_neg (by decide), if_neg (by decide),
    if_neg (by decide), if_neg (by decide), if_neg (by decide)]
  simp

theorem optsStep_neardis (o : TaskOptions) (v : Str) :
    optsStep o (str "NearDis=" ++ v) =
      match parseDistance v with
      | some d => .ok { o with near_dis := some d }
      | none => .error (.parse (str "invalid distance")) := by
  rw [key_eq_append (str "NearDis") _ v (by decide)]
  simp only [optsStep, splitOnce_key '=' (str "NearDis") v (by decide)]
  rw [if_neg (by decide), if_neg (by decide), if_neg (by decide)]
  simp

theorem optsStep_nearalt (o : TaskOptions) (v : Str) :
    optsStep o (str "NearAlt=" ++ v) =
      match parseElevation v with
      | some e => .ok { o with near_alt := some e }
      | none => .error (.parse (str "invalid elevation")) := by
  rw [key_eq_append (str "NearAlt") _ v (by decide)]
  simp only [optsStep, splitOnce_key '=' (str "NearAlt") v (by decide)]
  rw [if_neg (by decide), if_neg (by decide), if_neg (by decide), if_neg (by decide)]
  simp

theorem optsStep_maxpts (o : TaskOptions) (v : Str) :
    optsStep o (str "MaxPts=" ++ v) = .ok { o with max_pts := parseU32 v } := by
  rw [key_eq_append (str "MaxPts") _ v (by decide)]
  simp only [optsStep, splitOnce_key '=' (str "MaxPts") v (by decide)]
  rw [if_neg (by decide), if_neg (by decide), if_neg (by decide), if_neg (by decide),
    if_neg (by decide), if_neg (by decide), if_neg (by decide)]
  simp

theorem optsStep_beforepts (o : TaskOptions) (v : Str) :
    optsStep o (str "BeforePts=" ++ v) = .ok { o with before_pts := parseU32 v } := by
  rw [key_eq_append (str "BeforePts") _ v (by decide)]
  simp only [optsStep, splitOnce_key '=' (str "BeforePts") v (by decide)]
  rw [if_neg (by decide), if_neg (by decide), if_neg (by decide), if_neg (by decide),
    if_neg (by decide), if_neg (by decide), if_neg (by decide), if_neg (by decide)]
  simp

theorem optsStep_afterpts (o : TaskOptions) (v : Str) :
    optsStep o (str "AfterPts=" ++ v) = .ok { o with after_pts := parseU32 v } := by
  rw [key_eq_append (str "AfterPts") _ v (by decide)]
  simp only [optsStep, splitOnce_key '=' (str "AfterPts") v (by decide)]
  rw [if_neg (by decide), if_neg (by decide), if_neg (by decide), if_neg (by decide),
    if_neg (by decide), if_neg (by decide), if_neg (by decide), if_neg (by decide),
    if_neg (by decide)]
  simp

theorem optsStep_bonus (o : TaskOptions) (v : Str) :
    optsStep o (str "Bonus=" ++ v) = .ok { o with bonus := parseFloatTxt v } := by
  rw [key_eq_append (str "Bonus") _ v (by decide)]
  simp only [optsStep, splitOnce_key '=' (str "Bonus") v (by decide)]
  rw [if_neg (by decide), if_neg (by decide), if_neg (by decide), if_neg (by decide),
    if_neg (by decide), if_neg (by decide), if_neg (by decide), if_neg (by decide),
    if_neg (by decide), if_neg (by decide)]
  simp

theorem optsStep_unknown_key (o : TaskOptions) (v : Str) :
    optsStep o (str "Foo=" ++ v) = .ok o := by
  rw [key_eq_append (str "Foo") _ v (by decide)]
  simp only [optsStep, splitOnce_key '=' (str "Foo") v (by decide)]
  rw [if_neg (by decide), if_neg (by decide), if_neg (by decide), if_neg (by decide),
    if_neg (by decide), if_neg (by decide), if_neg (by decide), if_neg (by decide),
    if_neg (by decide), if_neg (by decide), if_neg (by decide)]

theorem obsStep_style (acc : ObsAcc) (v : Str) :
    obsStep acc (str "Style=" ++ v) =
      .ok { acc with style :=
        match parseU8 v with
        | some val => ObsZoneStyle.from_u8 val
        | none => acc.style } := by
  rw [key_eq_append (str "Style") _ v (by decide)]
  simp only [obsStep, splitOnce_key '=' (str "Style") v (by decide)]
  rw [if_neg (by decide)]
  simp

theorem obsStep_index (acc : ObsAcc) (v : Str) :
    obsStep acc (str "ObsZone=" ++ v) = .ok { acc with index := parseU32 v } := by
  rw [key_eq_append (str "ObsZone") _ v (by decide)]
  simp only [obsStep, splitOnce_key '=' (str "ObsZone") v (by decide)]
  simp

/-! ## Claim theorems -/

/-- C6: a task header record with zero fields is a hard error; otherwise the
description is `None` exactly when field 0 is the empty string and `Some`
field 0 otherwise, and the waypoint-name route is exactly fields 1.. in
order. -/
theorem claimC6_task_header (record : Rec) :
    (record = [] → parse_task_line record = .error (.parse (str "Empty task line"))) ∧
    (∀ f0 fs, record = f0 :: fs →
      parse_task_line record =
        .ok { description := if f0.isEmpty then none else some f0
              waypoint_names := fs
              options := none
              observation_zones := []
              points := []
              multiple_starts := [] }) := by
  constructor
  · intro h
    subst h
    rfl
  · intro f0 fs h
    subst h
    simp only [parse_task_line, List.isEmpty_cons, List.head?_cons, Option.map_some,
      Option.getD_some, List.drop_one, List.tail_cons]
    cases hf : f0.isEmpty <;> simp [hf]

/-- Witness for C6 at the empty record and at a header with an empty
description field. -/
theorem claimC6_task_header_witness :
    parse_task_line [] = .error (.parse (str "Empty task line")) ∧
    parse_task_line [str "", str "Start"] =
      .ok { description := none, waypoint_names := [str "Start"], options := none
            observation_zones := [], points := [], multiple_starts := [] } := by
  refine ⟨(claimC6_task_header []).1 rfl, ?_⟩
  have h := (claimC6_task_header [str "", str "Start"]).2 (str "") [str "Start"] rfl
  simpa using h

/-- C7: the boolean option keys parse as case-insensitive equality to
`"true"` (any other text gives `Some false`, never an error), and unknown
option keys are ignored. -/
theorem claimC7_options_booleans (v1 v2 v3 u : Str) :
    parse_options_line [str "Options", str "WpDis=" ++ v1, str "MinDis=" ++ v2,
        str "RandomOrder=" ++ v3, str "Foo=" ++ u] =
      .ok { no_start := none, task_time := none
            wp_dis := some (eqIgnoreAsciiCase v1 (str "true"))
            near_dis := none, near_alt := none
            min_dis := some (eqIgnoreAsciiCase v2 (str "true"))
            random_order := some (eqIgnoreAsciiCase v3 (str "true"))
            max_pts := none, before_pts := none, after_pts := none, bonus := none } ∧
    (∀ v : Str, eqIgnoreAsciiCase v (str "true") = true ↔ v.map asciiLower = str "true") := by
  constructor
  · simp only [parse_options_line, List.drop_succ_cons, List.drop_zero,
      foldlM_except_cons, optsStep_wpdis, except_bind_ok, optsStep_mindis,
      optsStep_randomorder, optsStep_unknown_key]
    rfl
  · intro v
    simp [eqIgnoreAsciiCase, show List.map asciiLower (str "true") = str "true" from by decide]

/-- C4: `NearDis`/`NearAlt` values that fail the unit-suffixed numeric parse
are a hard error, while `MaxPts`/`BeforePts`/`AfterPts`/`Bonus` values that
fail their numeric parses resolve to `None` with no error (and
`parse_options_line` has no warning channel at all). -/
theorem claimC4_options_numeric_asymmetry :
    (∀ v, parseDistance v = none →
      parse_options_line [str "Options", str "NearDis=" ++ v] =
        .error (.parse (str "invalid distance"))) ∧
    (∀ v, parseElevation v = none →
      parse_options_line [str "Options", str "NearAlt=" ++ v] =
        .error (.parse (str "invalid elevation"))) ∧
    (∀ v, parseU32 v = none →
      parse_options_line [str "Options", str "MaxPts=" ++ v] =
        .ok { no_start := none, task_time := none, wp_dis := none, near_dis := none
              near_alt := none, min_dis := none, random_order := none
              max_pts := none, before_pts := none, after_pts := none, bonus := none }) ∧
    (∀ v, parseU32 v = none →
      parse_options_line [str "Options", str "BeforePts=" ++ v] =
        .ok { no_start := none, task_time := none, wp_dis := none, near_dis := none
              near_alt := none, min_dis := none, random_order := none
              max_pts := none, before_pts := none, after_pts := none, bonus := none }) ∧
    (∀ v, parseU32 v = none →
      parse_options_line [str "Options", str "AfterPts=" ++ v] =
        .ok { no_start := none, task_time := none, wp_dis := none, near_dis := none
              near_alt := none, min_dis := none, random_order := none
              max_pts := none, before_pts := none, after_pts := none, bonus := none }) ∧
    (∀ v, parseFloatTxt v = none →
      parse_options_line [str "Options", str "Bonus=" ++ v] =
        .ok { no_start := none, task_time := none, wp_dis := none, near_dis := none
              near_alt := none, min_dis := none, random_order := none
              max_pts := none, before_pts := none, after_pts := none, bonus := none }) := by
  refine ⟨fun v hv => ?_, fun v hv => ?_, fun v hv => ?_, fun v hv => ?_,
    fun v hv => ?_, fun v hv => ?_⟩ <;>
    simp [parse_options_line, foldlM_except_cons, optsStep_neardis, optsStep_nearalt,
      optsStep_maxpts, optsStep_beforepts, optsStep_afterpts, optsStep_bonus, hv]

/-- Witness for C4 at the value `abc` of the spec's scenario. -/
theorem claimC4_options_numeric_asymmetry_witness :
    parse_options_line [str "Options", str "NearDis=" ++ str "abc"] =
      .error (.parse (str "invalid distance")) ∧
    parse_options_line [str "Options", str "MaxPts=" ++ str "abc"] =
      .ok { no_start := none, task_time := none, wp_dis := none, near_dis := none
            near_alt := none, min_dis := none, random_order := none
            max_pts := none, before_pts := none, after_pts := none, bonus := none } ∧
    parse_options_line [str "Options", str "Bonus=" ++ str "abc"] =
      .ok { no_start := none, task_time := none, wp_dis := none, near_dis := none
            near_alt := none, min_dis := none, random_order := none
            max_pts := none, before_pts := none, after_pts := none, bonus := none } :=
  ⟨claimC4_options_numeric_asymmetry.1 (str "abc") (by decide),
    claimC4_options_numeric_asymmetry.2.2.1 (str "abc") (by decide),
    claimC4_options_numeric_asymmetry.2.2.2.2.2 (str "abc") (by decide)⟩

/-- C5: `parse_obszone_line` reads key=value pairs from all fields including
field 0, a missing index or style key is a hard error, and a style value
that is not a recognized code of the closed style table is a hard error
(the style never leniently degrades). -/
theorem claimC5_obszone_strict :
    parse_obszone_line [str "Style=2"] = .error (.parse (str "Missing ObsZone index")) ∧
    parse_obszone_line [str "ObsZone=0"] = .error (.parse (str "Missing ObsZone style")) ∧
    (∀ v, (parseU8 v).bind ObsZoneStyle.from_u8 = none →
      parse_obszone_line [str "ObsZone=" ++ str "0", str "Style=" ++ v] =
        .error (.parse (str "Missing ObsZone style"))) ∧
    parse_obszone_line [str "ObsZone=5", str "Style=1"] =
      .ok { index := 5, style := .Symmetrical, r1 := none, a1 := none
            r2 := none, a2 := none, a12 := none, line := none } := by
  refine ⟨by decide, by decide, fun v hv => ?_, by decide⟩
  simp only [parse_obszone_line, foldlM_except_cons, obsStep_index, except_bind_ok,
    obsStep_style, List.foldlM_nil]
  cases hp : parseU8 v with
  | none =>
    simp [hp, bind, Except.bind, pure, Except.pure,
      show parseU32 (str "0") = some 0 from by decide]
  | some n =>
    have hv' : ObsZoneStyle.from_u8 n = none := by simpa [hp] using hv
    simp [hp, hv', bind, Except.bind, pure, Except.pure,
      show parseU32 (str "0") = some 0 from by decide]

/-- Witness for C5 at the unrecognized style code `99` of the spec's
asymmetry scenario. -/
theorem claimC5_obszone_strict_witness :
    parse_obszone_line [str "ObsZone=" ++ str "0", str "Style=" ++ str "99"] =
      .error (.parse (str "Missing ObsZone style")) :=
  claimC5_obszone_strict.2.2.1 (str "99") (by decide)

/-- C8: a STARTS line strips the `STARTS=` prefix from field 0 only, trims
whitespace from every field, drops fields empty after trimming, and yields
the names in order; the spec's record gives its four names; and within a
task block a later STARTS line overwrites the earlier one (last wins). -/
theorem claimC8_starts_line :
    (∀ f0 rest, parse_starts_line ((str "STARTS=" ++ f0) :: rest) =
      .ok ((trim f0 :: rest.map trim).filter fun s => !s.isEmpty)) ∧
    parse_starts_line [str "STARTS=Celovec", str "Hodos", str " Ratitovec ", str "Jamnik"] =
      .ok [str "Celovec", str "Hodos", str "Ratitovec", str "Jamnik"] ∧
    parse_starts_line [str "STARTS=A", str "STARTS=B", str "  "] =
      .ok [str "A", str "STARTS=B"] ∧
    parse_tasks cmEmpty [.ok [str "T", str "A"], .ok [str "STARTS=X"],
        .ok [str "STARTS=Y"]] [] =
      .ok ([{ description := some (str "T"), waypoint_names := [str "A"]
              options := none, observation_zones := [], points := []
              multiple_starts := [str "Y"] }], []) := by
  refine ⟨fun f0 rest => ?_, by decide, by decide, by decide⟩
  have h1 : (((str "STARTS=" ++ f0) :: rest).enum.map fun pr =>
      if pr.1 = 0 then stripLead (str "STARTS=") pr.2 else pr.2) = f0 :: rest := by
    simp only [List.enum_cons, List.map_cons, stripLead_append, if_pos rfl]
    exact congrArg _ (enumFrom_map_ne_zero _ rest 0)
  simp [parse_starts_line, h1]

/-- C2: a CSV read error met while peeking during attachment consumption
makes the whole task-list parse return `Ok` immediately — no error is
surfaced and the stream after the failure is never examined; concretely, a
stream whose fourth read fails yields only the first, completed task. -/
theorem claimC2_lookahead_error_swallowed :
    (∀ cm t ws e rest, parseTasksGo cm (.error e :: rest) (some t) ws = .ok ([], ws)) ∧
    parse_tasks cmEmpty [.ok [str "T1", str "A"], .ok [str "Options", str "WpDis=True"],
        .ok [str "T2", str "B"], .error "bad", .ok [str "junk"]] [] =
      .ok ([{ description := some (str "T1"), waypoint_names := [str "A"],
              options := some
                { no_start := none, task_time := none, wp_dis := some true,
                  near_dis := none, near_alt := none, min_dis := none, random_order := none,
                  max_pts := none, before_pts := none, after_pts := none, bonus := none },
              observation_zones := [], points := [], multiple_starts := [] }], []) :=
  ⟨fun _ _ _ _ _ => rfl, by decide⟩

/-- C3: when the peek during attachment consumption fails, the task being
assembled — its parsed header together with every attachment already
consumed — is discarded: the remaining result is empty however many
attachments were already attached, and in the concrete stream only the task
completed before the failing header survives. -/
theorem claimC3_inflight_task_discarded :
    (∀ cm atts t ws e rest, attachRunOk cm t ws atts = true →
      ∃ ws', parseTasksGo cm (atts ++ .error e :: rest) (some t) ws = .ok ([], ws')) ∧
    parse_tasks cmEmpty [.ok [str "T1", str "A"], .ok [str "STARTS=X"],
        .ok [str "T2", str "C"], .ok [str "ObsZone=0", str "Style=2"],
        .error "boom", .ok [str "junk"]] [] =
      .ok ([{ description := some (str "T1"), waypoint_names := [str "A"]
              options := none, observation_zones := [], points := []
              multiple_starts := [str "X"] }], []) := by
  constructor
  · intro cm atts
    induction atts with
    | nil => exact fun t ws e rest _ => ⟨ws, rfl⟩
    | cons a atts ih =>
      intro t ws e rest h
      match a with
      | .error e' => simp [attachRunOk] at h
      | .ok r =>
        simp only [attachRunOk, Bool.and_eq_true] at h
        obtain ⟨htag, hrest⟩ := h
        cases hstep : attachStep cm t ws r with
        | error e' => rw [hstep] at hrest; simp at hrest
        | ok p =>
          rw [hstep] at hrest
          simp only [List.cons_append, parseTasksGo, htag, if_pos, hstep]
          exact ih p.1 p.2 e rest hrest
  · decide

/-- Witness for C3: a run of two successfully attached tag lines (a STARTS
and an ObsZone attachment) followed by a failing read drops the in-flight
task. -/
theorem claimC3_inflight_task_discarded_witness :
    attachRunOk cmEmpty
        { description := some (str "T"), waypoint_names := [str "A"], options := none
          observation_zones := [], points := [], multiple_starts := [] } []
        [.ok [str "STARTS=X"], .ok [str "ObsZone=0", str "Style=2"]] = true ∧
    ∃ ws', parseTasksGo cmEmpty
        ([.ok [str "STARTS=X"], .ok [str "ObsZone=0", str "Style=2"]] ++
          .error "boom" :: [.ok [str "junk"]])
        (some { description := some (str "T"), waypoint_names := [str "A"], options := none
                observation_zones := [], points := [], multiple_starts := [] }) [] =
      .ok ([], ws') :=
  ⟨by decide, claimC3_inflight_task_discarded.1 cmEmpty
    [.ok [str "STARTS=X"], .ok [str "ObsZone=0", str "Style=2"]]
    { description := some (str "T"), waypoint_names := [str "A"], options := none
      observation_zones := [], points := [], multiple_starts := [] } []
    "boom" [.ok [str "junk"]] (by decide)⟩

/-- C1 counterexample: the record with fields `Opt` and `ions` — whose first
field starts with none of the four prefixes, and which parses as a valid
task header — is nevertheless consumed as a tag line by `parse_tasks`
(skipped, producing no task), because the prefixes are tested against the
concatenated byte slice `OptionsX…` of the whole record, not against the
first field. -/
theorem claimC1_first_field_refuted :
    firstFieldTagClaim [str "Opt", str "ions"] = false ∧
    parse_task_line [str "Opt", str "ions"] =
      .ok { description := some (str "Opt"), waypoint_names := [str "ions"],
            options := none, observation_zones := [], points := [],
            multiple_starts := [] } ∧
    parse_tasks cmEmpty [.ok [str "Opt", str "ions"]] [] = .ok ([], []) := by
  decide

/-- C1 amended: a record is classified as a tag line iff the concatenation
of all its fields' raw bytes (the csv byte record's underlying slice) starts
with one of the four fixed prefixes; a tag line seen while awaiting a header
is skipped, a non-tag record seen while awaiting a header starts a new task
header, and a non-tag record seen while consuming attachments ends the
attachment loop — the finished task is pushed and the record becomes the
next header. -/
theorem claimC1_tag_classification_amended :
    (∀ r : Rec, isTagLine r =
      ((str "Options").isPrefixOf r.flatten || (str "ObsZone=").isPrefixOf r.flatten ||
        (str "Point=").isPrefixOf r.flatten || (str "STARTS=").isPrefixOf r.flatten)) ∧
    (∀ cm r rest ws, isTagLine r = true →
      parseTasksGo cm (.ok r :: rest) none ws = parseTasksGo cm rest none ws) ∧
    (∀ cm r rest ws, isTagLine r = false →
      parseTasksGo cm (.ok r :: rest) none ws =
        match parse_task_line r with
        | .error e => .error e
        | .ok t => parseTasksGo cm rest (some t) ws) ∧
    (∀ cm r rest t ws, isTagLine r = false →
      parseTasksGo cm (.ok r :: rest) (some t) ws =
        match parse_task_line r with
        | .error e => .error e
        | .ok t2 =>
          match parseTasksGo cm rest (some t2) ws with
          | .error e => .error e
          | .ok (ts, ws') => .ok (t :: ts, ws')) := by
  refine ⟨fun r => rfl, fun cm r rest ws h => ?_, fun cm r rest ws h => ?_,
    fun cm r rest t ws h => ?_⟩
  · simp [parseTasksGo, h]
  · simp [parseTasksGo, h]
  · simp [parseTasksGo, h]

/-- Witness for C1's amended classification, at a tag-by-concatenation
record and at a non-tag record. -/
theorem claimC1_tag_classification_amended_witness :
    (isTagLine [str "Opt", str "ions"] = true ∧
      parseTasksGo cmEmpty [.ok [str "Opt", str "ions"]] none [] =
        parseTasksGo cmEmpty [] none []) ∧
    (isTagLine [str "Task B", str "WP1"] = false ∧
      parseTasksGo cmEmpty [.ok [str "Task B", str "WP1"]] none [] =
        match parse_task_line [str "Task B", str "WP1"] with
        | .error e => .error e
        | .ok t => parseTasksGo cmEmpty [] (some t) []) :=
  ⟨⟨by decide, claimC1_tag_classification_amended.2.1 cmEmpty
      [str "Opt", str "ions"] [] [] (by decide)⟩,
    ⟨by decide, claimC1_tag_classification_amended.2.2.1 cmEmpty
      [str "Task B", str "WP1"] [] [] (by decide)⟩⟩

theorem point_prefix_head {s : Str} (h : (str "Point=").isPrefixOf s = true) :
    ∃ cs, s = 'P' :: cs := by
  cases s with
  | nil =>
    rw [show (str "Point=") = 'P' :: str "oint=" from by decide] at h
    simp [List.isPrefixOf] at h
  | cons c cs =>
    rw [show (str "Point=") = 'P' :: str "oint=" from by decide] at h
    simp only [List.isPrefixOf, Bool.and_eq_true, beq_iff_eq] at h
    exact ⟨cs, by rw [h.1]⟩

theorem not_other_tags_of_point {s : Str}
    (h : (str "Point=").isPrefixOf s = true) :
    (str "Options").isPrefixOf s = false ∧ (str "ObsZone=").isPrefixOf s = false := by
  obtain ⟨cs, rfl⟩ := point_prefix_head h
  constructor
  · rw [show (str "Options") = 'O' :: str "ptions" from by decide]
    exact isPrefixOf_cons_ne (by decide) _ _
  · rw [show (str "ObsZone=") = 'O' :: str "bsZone=" from by decide]
    exact isPrefixOf_cons_ne (by decide) _ _

/-- C9 counterexample: on the record whose field 0 is `Point=Point=7`,
stripping the `Point=` prefix (one occurrence, as the claim reads) leaves
`Point=7`, which does not parse as a non-negative integer — so the claim
demands a hard error — yet the code strips the prefix repeatedly with
`trim_start_matches` and returns `Ok` with point index `7`. -/
theorem claimC9_point_strip_refuted :
    pointIndexClaim (str "Point=Point=7") = none ∧
    parse_inline_waypoint_line_with_index cmName [str "Point=Point=7", str "WP"] [] =
      .ok (7, wpWP, []) := by
  decide

/-- C9 amended: field 0 after stripping all leading repetitions of the
`Point=` prefix must parse as a non-negative integer, otherwise parsing is a
hard error; on success fields 1.. are re-packaged as a fresh record and
decoded through the Waypoint Codec with the document's waypoint-section
column map; and the resulting (index, waypoint) pair is appended at the end
of the task's point list, so order of appearance is preserved and duplicate
indices are allowed. -/
theorem claimC9_point_line_amended :
    (∀ cm r ws, parseUsize (trimLeadMatches (str "Point=") (r.headD [])) = none →
      parse_inline_waypoint_line_with_index cm r ws =
        .error (.parse (str "Invalid point index: '" ++
          trimLeadMatches (str "Point=") (r.headD []) ++ str "'"))) ∧
    (∀ cm f0 fs ws n w ws2, parseUsize (trimLeadMatches (str "Point=") f0) = some n →
      parse_waypoint cm fs ws = .ok (w, ws2) →
      parse_inline_waypoint_line_with_index cm (f0 :: fs) ws = .ok (n, w, ws2)) ∧
    (∀ cm t ws rest r i w ws2, (str "Point=").isPrefixOf r.flatten = true →
      parse_inline_waypoint_line_with_index cm r ws = .ok (i, w, ws2) → i < 2 ^ 32 →
      parseTasksGo cm (.ok r :: rest) (some t) ws =
        parseTasksGo cm rest (some { t with points := t.points ++ [(i, w)] }) ws2) := by
  refine ⟨fun cm r ws h => ?_, fun cm f0 fs ws n w ws2 h1 h2 => ?_,
    fun cm t ws rest r i w ws2 hpre hinl hlt => ?_⟩
  · cases r with
    | nil =>
      simp only [List.headD_nil] at h
      simp [parse_inline_waypoint_line_with_index, h]
    | cons f0 fs =>
      simp only [List.headD_cons] at h
      simp [parse_inline_waypoint_line_with_index, h]
  · simp [parse_inline_waypoint_line_with_index, h1, h2]
  · have hno := not_other_tags_of_point hpre
    have htag : isTagLine r = true := by simp [isTagLine, hpre]
    simp only [parseTasksGo, htag, if_true]
    have hmod : i % 4294967296 = i := Nat.mod_eq_of_lt (by simpa using hlt)
    simp [attachStep, hno.1, hno.2, hpre, hinl, hmod]

/-- Witness for C9's amended behaviour: an unparsable index errors, a valid
index decodes the remaining fields as a waypoint, and a consumed Point line
appends its pair to the point list. -/
theorem claimC9_point_line_amended_witness :
    parse_inline_waypoint_line_with_index cmEmpty [str "Point=abc"] [] =
      .error (.parse (str "Invalid point index: '" ++
        trimLeadMatches (str "Point=") (([str "Point=abc"] : Rec).headD []) ++ str "'")) ∧
    parse_inline_waypoint_line_with_index cmName [str "Point=12", str "WP"] [] =
      .ok (12, wpWP, []) :=
  ⟨claimC9_point_line_amended.1 cmEmpty [str "Point=abc"] [] (by decide),
    claimC9_point_line_amended.2.1 cmName (str "Point=12") [str "WP"] [] 12
      wpWP [] (by decide) (by decide)⟩

/-- C10: the writer emits as its first record the waypoint header with the
fourteen canonical column names in canonical order, then each waypoint
through the waypoint encoder, and emits the fixed sentinel line
`-----Related Tasks-----` iff the task list is nonempty, followed by each
task block; in particular the first output line is always exactly the
canonical header. -/
theorem claimC10_writer_layout :
    (∀ cf : CupFile, format_cup_file cf =
      .ok (csvRecordLine [str "name", str "code", str "country", str "lat", str "lon",
          str "elev", str "style", str "rwdir", str "rwlen", str "rwwidth", str "freq",
          str "desc", str "userdata", str "pics"] ++
        (cf.waypoints.map write_waypoint).flatten ++
        (if cf.tasks.isEmpty then []
         else str "-----Related Tasks-----" ++ ['\n'] ++
           (cf.tasks.map fun t => format_task t ++ ['\n']).flatten))) ∧
    (∀ cf out, format_cup_file cf = .ok out →
      out.takeWhile (fun c => c != '\n') =
        str "name,code,country,lat,lon,elev,style,rwdir,rwlen,rwwidth,freq,desc,userdata,pics") := by
  have hbody : ∀ cf : CupFile, format_cup_file cf =
      .ok (csvRecordLine canonicalHeader ++
        (cf.waypoints.map write_waypoint).flatten ++
        (if cf.tasks.isEmpty then []
         else str "-----Related Tasks-----" ++ ['\n'] ++
           (cf.tasks.map fun t => format_task t ++ ['\n']).flatten)) := by
    intro cf
    cases h : cf.tasks.isEmpty <;>
      simp [format_cup_file, h, List.append_assoc]
  refine ⟨fun cf => hbody cf, fun cf out h => ?_⟩
  rw [hbody cf] at h
  cases h
  rw [show csvRecordLine canonicalHeader =
      str "name,code,country,lat,lon,elev,style,rwdir,rwlen,rwwidth,freq,desc,userdata,pics" ++
        ['\n'] from by decide]
  rw [List.append_assoc, List.append_assoc, List.singleton_append]
  exact takeWhile_append_cons _ '\n' _ (by decide) (by decide)

/-- Witness for C10 at the empty document. -/
theorem claimC10_writer_layout_witness :
    format_cup_file { waypoints := [], tasks := [] } =
      .ok (str "name,code,country,lat,lon,elev,style,rwdir,rwlen,rwwidth,freq,desc,userdata,pics" ++
        ['\n']) ∧
    (str "name,code,country,lat,lon,elev,style,rwdir,rwlen,rwwidth,freq,desc,userdata,pics" ++
        ['\n']).takeWhile (fun c => c != '\n') =
      str "name,code,country,lat,lon,elev,style,rwdir,rwlen,rwwidth,freq,desc,userdata,pics" :=
  ⟨by decide, claimC10_writer_layout.2 { waypoints := [], tasks := [] } _ (by decide)⟩

end SeeyouCup
